import Mathlib

/-!
Verification of the telemetry aggregation store (`store.go` of the
safelyyou repository).

Modelling conventions, chosen to mirror the Go source:
* `time.Time` values are modelled as `ℤ` nanoseconds, with `0` playing the
  role of Go's zero time (`time.Time.IsZero`), which the code uses as the
  in-band "unset" marker for `FirstHeartbeat`.
* `time.Duration` (an `int64` nanosecond count) is modelled as `ℤ`; Go's
  duration division truncates toward zero, which is `Int.tdiv`.
* `float64` arithmetic in the uptime computation is modelled exactly over
  `ℚ`.  The one place where IEEE semantics are visible is division by a
  zero `minutesBetween`: in Go a positive count divided by `+0.0` yields
  `+Inf`, which the subsequent cap turns into `100.0`; the model makes
  that branch explicit.
* The Go map `map[string]*DeviceStats` is modelled as a function
  `String → Option DeviceStats`; in-place mutation of a record becomes a
  functional update at the device's key.
-/

/-- Nanoseconds per minute (`time.Minute`). -/
def minuteNs : ℤ := 60000000000

/-- Record type `DeviceStats` from store.go: aggregated telemetry for one device.
Timestamps are `ℤ` nanoseconds (0 = Go's zero time), durations `ℤ`
nanoseconds. -/
structure DeviceStats where
  id : String
  heartbeatCount : ℤ
  firstHeartbeat : ℤ
  lastHeartbeat : ℤ
  uploadCount : ℤ
  uploadTimeSum : ℤ
  deriving DecidableEq, Repr

/-- A freshly registered device record: `&DeviceStats{ID: deviceID}` as
created by `LoadDevicesFromCSV` (all other fields are Go zero values). -/
def initDevice (deviceID : String) : DeviceStats :=
  { id := deviceID, heartbeatCount := 0, firstHeartbeat := 0,
    lastHeartbeat := 0, uploadCount := 0, uploadTimeSum := 0 }

/-- The store's device map `map[string]*DeviceStats`. -/
def Store : Type := String → Option DeviceStats

/-- The store produced by loading a roster of device ids (the effect of
`LoadDevicesFromCSV` on the device map: one zero-valued record per id). -/
def initStore (roster : List String) : Store :=
  fun k => if roster.contains k then some (initDevice k) else none

/-- Model of `Store.DeviceExists`. -/
def deviceExists (s : Store) (deviceID : String) : Bool :=
  (s deviceID).isSome

/-- Model of `Store.RecordHeartbeat`: returns the boolean result and the updated
store.  Mirrors the source line by line: missing device returns `false`
with no mutation; otherwise increment `HeartbeatCount`, set
`FirstHeartbeat := sentAt` when `FirstHeartbeat.IsZero()`, and
unconditionally set `LastHeartbeat := sentAt`. -/
def recordHeartbeat (s : Store) (deviceID : String) (sentAt : ℤ) :
    Bool × Store :=
  match s deviceID with
  | none => (false, s)
  | some device =>
    let device' :=
      { device with
        heartbeatCount := device.heartbeatCount + 1
        firstHeartbeat :=
          if device.firstHeartbeat = 0 then sentAt else device.firstHeartbeat
        lastHeartbeat := sentAt }
    (true, fun k => if k = deviceID then some device' else s k)

/-- Reduction of an integer to Go's two's-complement `int64` range
`[-2^63, 2^63)`, which is how Go addition of `time.Duration` values
behaves on overflow. -/
def wrap64 (x : ℤ) : ℤ := (x + 2 ^ 63) % 2 ^ 64 - 2 ^ 63

/-- Model of `Store.RecordUploadStat`: increments `UploadCount` and adds
`uploadTime` to `UploadTimeSum`; unknown device returns `false` with no
mutation.  `UploadTimeSum` is a Go `time.Duration` (`int64`), and the
`+=` there wraps on overflow, which `wrap64` reproduces; this is the one
arithmetic step of the store that can overflow after only a handful of
calls (the `int64` event counters would need 2^63 calls each, which no
run can perform, so they are kept as plain increments). -/
def recordUploadStat (s : Store) (deviceID : String) (uploadTime : ℤ) :
    Bool × Store :=
  match s deviceID with
  | none => (false, s)
  | some device =>
    let device' :=
      { device with
        uploadCount := device.uploadCount + 1
        uploadTimeSum := wrap64 (device.uploadTimeSum + uploadTime) }
    (true, fun k => if k = deviceID then some device' else s k)

/-- Result type `StatsResult` from store.go.  `uptime` is the `float64` percentage
modelled over `ℚ`; `avgUploadTime` is a duration in `ℤ` nanoseconds. -/
structure StatsResult where
  hasHeartbeats : Bool
  hasUploads : Bool
  uptime : ℚ
  avgUploadTime : ℤ
  deriving DecidableEq, Repr

/-- The Go zero value `StatsResult{}`. -/
def emptyStats : StatsResult :=
  { hasHeartbeats := false, hasUploads := false, uptime := 0,
    avgUploadTime := 0 }

/-- The quantity `(last - first).Minutes() + 1` from `GetStats`, computed exactly over
`ℚ` (Go computes `float64(q) + float64(r)/6e10` for the t-division
`d = 6e10*q + r`, which is the real number `d / 6e10` up to rounding). -/
def minutesBetween (device : DeviceStats) : ℚ :=
  ((device.lastHeartbeat - device.firstHeartbeat : ℤ) : ℚ) / (minuteNs : ℚ) + 1

/-- Model of `Store.GetStats`.  The `minutesBetween = 0` branch records the IEEE
behaviour of the source at that point: a positive `float64` count divided
by `+0.0` is `+Inf`, which the cap `if result.Uptime > 100.0` rewrites to
`100.0`. -/
def getStats (s : Store) (deviceID : String) : StatsResult × Bool :=
  match s deviceID with
  | none => (emptyStats, false)
  | some device =>
    let r1 :=
      if device.heartbeatCount > 0 then
        if device.heartbeatCount = 1 then
          { emptyStats with hasHeartbeats := true, uptime := 100 }
        else
          let mb := minutesBetween device
          let raw : ℚ :=
            if mb = 0 then 100
            else (device.heartbeatCount : ℚ) / mb * 100
          { emptyStats with
            hasHeartbeats := true
            uptime := if raw > 100 then 100 else raw }
      else emptyStats
    let r2 :=
      if device.uploadCount > 0 then
        { r1 with
          hasUploads := true
          avgUploadTime := device.uploadTimeSum.tdiv device.uploadCount }
      else r1
    (r2, true)

/-- Model of `Store.DeviceCount` (cardinality is only meaningful on a finite
support; given a roster-built store it is the roster's cardinality). -/
def deviceCount (roster : List String) : ℕ :=
  roster.dedup.length

/-- One recorded telemetry event at the store boundary. -/
inductive Op where
  | heartbeat (deviceID : String) (sentAt : ℤ)
  | upload (deviceID : String) (uploadTime : ℤ)
  deriving DecidableEq, Repr

/-- The store-state effect of one operation. -/
def applyOp (s : Store) : Op → Store
  | .heartbeat id t => (recordHeartbeat s id t).2
  | .upload id d => (recordUploadStat s id d).2

/-- The store state after a sequence of recorded operations. -/
def applyOps (s : Store) (ops : List Op) : Store :=
  ops.foldl applyOp s

/-! ### Derived forms and auxiliary predicates -/

/-- The uptime percentage `GetStats` computes for a known device's record
(the heartbeat half of the result, as a function of the record alone). -/
def uptimeOf (d : DeviceStats) : ℚ :=
  if d.heartbeatCount > 0 then
    if d.heartbeatCount = 1 then 100
    else
      let mb := minutesBetween d
      let raw : ℚ := if mb = 0 then 100 else (d.heartbeatCount : ℚ) / mb * 100
      if raw > 100 then 100 else raw
  else 0

/-- The average upload duration `GetStats` computes for a known device's
record (Go's zero value when there are no uploads). -/
def avgUploadOf (d : DeviceStats) : ℤ :=
  if d.uploadCount > 0 then d.uploadTimeSum.tdiv d.uploadCount else 0

/-- Evaluation of `GetStats` on a known device, written as a function of the record. -/
theorem getStats_known (s : Store) (deviceID : String) (d : DeviceStats)
    (hd : s deviceID = some d) :
    getStats s deviceID =
      (⟨decide (d.heartbeatCount > 0), decide (d.uploadCount > 0),
        uptimeOf d, avgUploadOf d⟩, true) := by
  unfold getStats uptimeOf avgUploadOf
  rw [hd]
  by_cases hb : d.heartbeatCount > 0 <;> by_cases h1 : d.heartbeatCount = 1 <;>
    by_cases hu : d.uploadCount > 0 <;>
      simp [hb, h1, hu, emptyStats]

/-- An operation whose heartbeat timestamp is not Go's zero time (upload
operations carry no timestamp and satisfy this vacuously). -/
def opNonzeroTime : Op → Prop
  | .heartbeat _ t => t ≠ 0
  | .upload _ _ => True

/-- An operation whose upload duration is positive (heartbeats satisfy
this vacuously). -/
def opPositiveDuration : Op → Prop
  | .heartbeat _ _ => True
  | .upload _ d => 0 < d

/-- Heartbeat bookkeeping invariant: counts are non-negative and
`firstHeartbeat` is the zero time exactly while no heartbeat has been
recorded.  Maintained from an initial roster store by operations whose
heartbeat timestamps avoid the zero time. -/
def hbClean (s : Store) : Prop :=
  ∀ deviceID d, s deviceID = some d →
    0 ≤ d.heartbeatCount ∧ (d.heartbeatCount = 0 ↔ d.firstHeartbeat = 0)

/-- Upload duration carried by an operation (0 for heartbeats). -/
def opUploadAmount : Op → ℤ
  | .heartbeat _ _ => 0
  | .upload _ dur => dur

/-- Total of the upload durations of a sequence of operations; when it
stays within the `int64` range, none of the wrapped sum updates in the
sequence can overflow. -/
def uploadBudget (ops : List Op) : ℤ :=
  (ops.map opUploadAmount).sum

/-- Upload bookkeeping invariant under positive durations, relative to a
budget `B` bounding the accumulated sum: counters are non-negative, the
sum is between 0 and `B`, and the count is zero exactly when the sum
is. -/
def upBounded (B : ℤ) (s : Store) : Prop :=
  ∀ deviceID d, s deviceID = some d →
    0 ≤ d.uploadCount ∧ 0 ≤ d.uploadTimeSum ∧ d.uploadTimeSum ≤ B ∧
    (d.uploadCount = 0 ↔ d.uploadTimeSum = 0)

theorem hbClean_initStore (roster : List String) : hbClean (initStore roster) := by
  intro deviceID d hd
  unfold initStore at hd
  split at hd
  · cases hd
    simp [initDevice]
  · cases hd

theorem wrap64_eq_self (x : ℤ) (hlo : -(2 ^ 63) ≤ x) (hhi : x < 2 ^ 63) :
    wrap64 x = x := by
  unfold wrap64
  rw [Int.emod_eq_of_lt (by omega) (by omega)]
  omega

theorem opUploadAmount_nonneg (op : Op) (hop : opPositiveDuration op) :
    0 ≤ opUploadAmount op := by
  cases op with
  | heartbeat id t => simp [opUploadAmount]
  | upload id dur =>
    simp only [opPositiveDuration] at hop
    simp only [opUploadAmount]
    omega

theorem uploadBudget_nonneg (ops : List Op)
    (hops : ∀ op ∈ ops, opPositiveDuration op) : 0 ≤ uploadBudget ops := by
  induction ops with
  | nil => simp [uploadBudget]
  | cons op rest ih =>
    have h1 := opUploadAmount_nonneg op (hops op (List.mem_cons_self op rest))
    have h2 := ih (fun o ho => hops o (List.mem_cons_of_mem op ho))
    simp only [uploadBudget, List.map_cons, List.sum_cons]
    simp only [uploadBudget] at h2
    omega

theorem upBounded_initStore (roster : List String) :
    upBounded 0 (initStore roster) := by
  intro deviceID d hd
  unfold initStore at hd
  split at hd
  · cases hd
    simp [initDevice]
  · cases hd

theorem hbClean_applyOp (s : Store) (hs : hbClean s) (op : Op)
    (hop : opNonzeroTime op) : hbClean (applyOp s op) := by
  cases op with
  | heartbeat id t =>
    intro j e he
    simp only [applyOp, recordHeartbeat] at he
    cases hsi : s id with
    | none => rw [hsi] at he; exact hs j e he
    | some dev =>
      rw [hsi] at he
      simp only at he
      by_cases hj : j = id
      · rw [if_pos hj] at he
        cases he
        obtain ⟨hc, hiff⟩ := hs id dev hsi
        simp only [opNonzeroTime] at hop
        refine ⟨by simp only; omega, ?_⟩
        simp only
        by_cases hf : dev.firstHeartbeat = 0
        · rw [if_pos hf]
          constructor
          · intro h0; omega
          · intro ht; exact absurd ht hop
        · rw [if_neg hf]
          constructor
          · intro h0; omega
          · intro h0; exact absurd h0 hf
      · rw [if_neg hj] at he
        exact hs j e he
  | upload id dur =>
    intro j e he
    simp only [applyOp, recordUploadStat] at he
    cases hsi : s id with
    | none => rw [hsi] at he; exact hs j e he
    | some dev =>
      rw [hsi] at he
      simp only at he
      by_cases hj : j = id
      · rw [if_pos hj] at he
        cases he
        obtain ⟨hc, hiff⟩ := hs id dev hsi
        exact ⟨hc, hiff⟩
      · rw [if_neg hj] at he
        exact hs j e he

theorem upBounded_applyOp (s : Store) (B : ℤ) (hs : upBounded B s) (op : Op)
    (hop : opPositiveDuration op) (hB : 0 ≤ B)
    (hbound : B + opUploadAmount op ≤ 2 ^ 63 - 1) :
    upBounded (B + opUploadAmount op) (applyOp s op) := by
  cases op with
  | heartbeat id t =>
    simp only [opUploadAmount, add_zero]
    intro j e he
    simp only [applyOp, recordHeartbeat] at he
    cases hsi : s id with
    | none => rw [hsi] at he; exact hs j e he
    | some dev =>
      rw [hsi] at he
      simp only at he
      by_cases hj : j = id
      · rw [if_pos hj] at he
        cases he
        exact hs id dev hsi
      · rw [if_neg hj] at he
        exact hs j e he
  | upload id dur =>
    simp only [opUploadAmount] at hbound ⊢
    simp only [opPositiveDuration] at hop
    intro j e he
    simp only [applyOp, recordUploadStat] at he
    cases hsi : s id with
    | none =>
      rw [hsi] at he
      obtain ⟨h1, h2, h3, h4⟩ := hs j e he
      exact ⟨h1, h2, by omega, h4⟩
    | some dev =>
      rw [hsi] at he
      simp only at he
      by_cases hj : j = id
      · rw [if_pos hj] at he
        cases he
        obtain ⟨hc, hsum0, hsumB, hiff⟩ := hs id dev hsi
        have hw : wrap64 (dev.uploadTimeSum + dur) = dev.uploadTimeSum + dur :=
          wrap64_eq_self _ (by omega) (by omega)
        simp only [hw]
        refine ⟨by omega, by omega, by omega, ?_⟩
        constructor
        · intro h0; omega
        · intro h0; omega
      · rw [if_neg hj] at he
        obtain ⟨h1, h2, h3, h4⟩ := hs j e he
        exact ⟨h1, h2, by omega, h4⟩

theorem hbClean_applyOps (ops : List Op) (s : Store) (hs : hbClean s)
    (hops : ∀ op ∈ ops, opNonzeroTime op) : hbClean (applyOps s ops) := by
  induction ops generalizing s with
  | nil => exact hs
  | cons op rest ih =>
    have h1 : hbClean (applyOp s op) :=
      hbClean_applyOp s hs op (hops op (List.mem_cons_self op rest))
    have h2 : ∀ o ∈ rest, opNonzeroTime o :=
      fun o ho => hops o (List.mem_cons_of_mem op ho)
    simpa [applyOps] using ih (applyOp s op) h1 h2

theorem upBounded_applyOps (ops : List Op) (s : Store) (B : ℤ)
    (hs : upBounded B s) (hops : ∀ op ∈ ops, opPositiveDuration op)
    (hB : 0 ≤ B) (hbound : B + uploadBudget ops ≤ 2 ^ 63 - 1) :
    upBounded (B + uploadBudget ops) (applyOps s ops) := by
  induction ops generalizing s B with
  | nil =>
    simpa [applyOps, uploadBudget] using hs
  | cons op rest ih =>
    have hpos_op : opPositiveDuration op := hops op (List.mem_cons_self op rest)
    have hpos_rest : ∀ o ∈ rest, opPositiveDuration o :=
      fun o ho => hops o (List.mem_cons_of_mem op ho)
    have hamt : 0 ≤ opUploadAmount op := opUploadAmount_nonneg op hpos_op
    have hrest : 0 ≤ uploadBudget rest := uploadBudget_nonneg rest hpos_rest
    have hcons : uploadBudget (op :: rest)
        = opUploadAmount op + uploadBudget rest := by
      simp [uploadBudget]
    rw [hcons] at hbound ⊢
    have hstep : upBounded (B + opUploadAmount op) (applyOp s op) :=
      upBounded_applyOp s B hs op hpos_op hB (by omega)
    have hrec := ih (applyOp s op) (B + opUploadAmount op) hstep hpos_rest
      (by omega) (by omega)
    have hfold : applyOps s (op :: rest) = applyOps (applyOp s op) rest := by
      simp [applyOps]
    rw [hfold]
    have harith : B + (opUploadAmount op + uploadBudget rest)
        = B + opUploadAmount op + uploadBudget rest := by ring
    rw [harith]
    exact hrec

/-! ### Claim theorems -/

/-- Claim C1, counterexample.  When the first heartbeat carries Go's zero
time, `FirstHeartbeat` is assigned the zero value, so the zero check fires
again on the next call: after heartbeat(0) (one heartbeat recorded) a
second heartbeat at 60s re-assigns `firstHeartbeat` to 60s, contradicting
"firstHeartbeatAt never changes on any later call". -/
theorem firstHeartbeat_reset_example :
    ((applyOps (initStore ["device-1"]) [Op.heartbeat "device-1" 0])
        "device-1").map DeviceStats.heartbeatCount = some 1 ∧
    ((applyOps (initStore ["device-1"]) [Op.heartbeat "device-1" 0])
        "device-1").map DeviceStats.firstHeartbeat = some 0 ∧
    ((applyOps (initStore ["device-1"])
        [Op.heartbeat "device-1" 0, Op.heartbeat "device-1" 60000000000])
        "device-1").map DeviceStats.firstHeartbeat = some 60000000000 := by
  decide

/-- Claim C1 (amended): provided no heartbeat ever carries Go's zero
time value, `recordHeartbeat` on a known device of a roster-initialized
store returns `true`, increments that device's `heartbeatCount` by
exactly 1, unconditionally sets `lastHeartbeatAt := sentAt`, and sets
`firstHeartbeatAt := sentAt` exactly when this is the first heartbeat
ever recorded (leaving it unchanged on every later call). -/
theorem recordHeartbeat_spec (roster : List String) (ops : List Op)
    (hops : ∀ op ∈ ops, opNonzeroTime op) (s : Store)
    (hs : s = applyOps (initStore roster) ops)
    (deviceID : String) (d : DeviceStats) (hd : s deviceID = some d)
    (t : ℤ) (ht : t ≠ 0) :
    (recordHeartbeat s deviceID t).1 = true ∧
    ((recordHeartbeat s deviceID t).2 deviceID).map DeviceStats.heartbeatCount
      = some (d.heartbeatCount + 1) ∧
    ((recordHeartbeat s deviceID t).2 deviceID).map DeviceStats.lastHeartbeat
      = some t ∧
    ((recordHeartbeat s deviceID t).2 deviceID).map DeviceStats.firstHeartbeat
      = some (if d.heartbeatCount = 0 then t else d.firstHeartbeat) := by
  have hclean : hbClean s :=
    hs ▸ hbClean_applyOps ops (initStore roster) (hbClean_initStore roster) hops
  obtain ⟨hc, hiff⟩ := hclean deviceID d hd
  unfold recordHeartbeat
  rw [hd]
  refine ⟨rfl, by simp, by simp, ?_⟩
  simp only [Option.map, if_pos rfl]
  by_cases hf : d.firstHeartbeat = 0
  · rw [if_pos hf, if_pos (hiff.mpr hf)]
    simp
  · rw [if_neg hf, if_neg (fun h0 => hf (hiff.mp h0))]
    simp

/-- Concrete store for the C1 witness: one heartbeat at T1 = 120s. -/
def wStore1 : Store :=
  applyOps (initStore ["device-1"]) [Op.heartbeat "device-1" 120000000000]

/-- Witness for C1 (amended): recording heartbeat(T1 = 120s) and then
heartbeat(T2 = 60s) with T2 < T1 returns true, yields count 2, leaves
`firstHeartbeatAt = T1` and sets `lastHeartbeatAt = T2`. -/
theorem recordHeartbeat_spec_witness :
    (recordHeartbeat wStore1 "device-1" 60000000000).1 = true ∧
    ((recordHeartbeat wStore1 "device-1" 60000000000).2 "device-1").map
      DeviceStats.heartbeatCount = some 2 ∧
    ((recordHeartbeat wStore1 "device-1" 60000000000).2 "device-1").map
      DeviceStats.lastHeartbeat = some 60000000000 ∧
    ((recordHeartbeat wStore1 "device-1" 60000000000).2 "device-1").map
      DeviceStats.firstHeartbeat = some 120000000000 := by
  have h := recordHeartbeat_spec ["device-1"]
    [Op.heartbeat "device-1" 120000000000]
    (by
      intro op hop
      simp only [List.mem_singleton] at hop
      subst hop
      simp [opNonzeroTime])
    wStore1 rfl "device-1"
    ⟨"device-1", 1, 120000000000, 120000000000, 0, 0⟩ (by decide)
    60000000000 (by norm_num)
  refine ⟨h.1, h.2.1, h.2.2.1, ?_⟩
  rw [h.2.2.2]
  norm_num

/-- Claim C2: for a known device with at least two heartbeats (and a
nonzero denominator, which is how the spec's real-valued formula reads),
`getStats` reports
`uptimePercent = (heartbeatCount / (minutes(last − first) + 1)) × 100`
clamped above at 100. -/
theorem getStats_uptime_formula (s : Store) (deviceID : String)
    (d : DeviceStats) (hd : s deviceID = some d)
    (h2 : 2 ≤ d.heartbeatCount) (hmb : minutesBetween d ≠ 0) :
    (getStats s deviceID).1.uptime =
      min 100 ((d.heartbeatCount : ℚ) / minutesBetween d * 100) := by
  rw [getStats_known s deviceID d hd]
  show uptimeOf d = _
  unfold uptimeOf
  have hb : d.heartbeatCount > 0 := by omega
  have h1 : d.heartbeatCount ≠ 1 := by omega
  rw [if_pos hb, if_neg h1]
  simp only [if_neg hmb]
  by_cases hr : (d.heartbeatCount : ℚ) / minutesBetween d * 100 > 100
  · rw [if_pos hr]
    exact (min_eq_left hr.le).symm
  · rw [if_neg hr]
    exact (min_eq_right (not_lt.mp hr)).symm

/-- Concrete store for the C2 witness: five heartbeats at minute offsets
0, 2, 5, 8, 10 past a base time of one minute. -/
def wStore2 : Store :=
  applyOps (initStore ["device-1"])
    [Op.heartbeat "device-1" 60000000000,
     Op.heartbeat "device-1" 180000000000,
     Op.heartbeat "device-1" 360000000000,
     Op.heartbeat "device-1" 540000000000,
     Op.heartbeat "device-1" 660000000000]

/-- Witness for C2: heartbeats at minute offsets {0,2,5,8,10} yield
`uptimePercent = 500/11 ≈ 45.45`, within 0.01 of 45.45. -/
theorem getStats_uptime_formula_witness :
    (getStats wStore2 "device-1").1.uptime = 500 / 11 ∧
    |(500 / 11 : ℚ) - 4545 / 100| < 1 / 100 := by
  constructor
  · have h := getStats_uptime_formula wStore2 "device-1"
      ⟨"device-1", 5, 60000000000, 660000000000, 0, 0⟩ (by decide)
      (by norm_num) (by norm_num [minutesBetween, minuteNs])
    rw [h]
    norm_num [minutesBetween, minuteNs]
  · rw [abs_sub_lt_iff]
    norm_num

/-- Claim C3: for a known device whose record holds exactly one recorded
heartbeat, `getStats` reports `found = true` and `uptimePercent = 100`,
regardless of the heartbeat's timestamp. -/
theorem single_heartbeat_uptime (s : Store) (deviceID : String)
    (d : DeviceStats) (hd : s deviceID = some d)
    (h1 : d.heartbeatCount = 1) :
    (getStats s deviceID).2 = true ∧ (getStats s deviceID).1.uptime = 100 := by
  rw [getStats_known s deviceID d hd]
  refine ⟨rfl, ?_⟩
  show uptimeOf d = 100
  unfold uptimeOf
  rw [if_pos (by omega : d.heartbeatCount > 0), if_pos h1]

/-- Concrete store for the C3 witness: a single heartbeat at an arbitrary
timestamp T = 98765 ns. -/
def wStore3 : Store :=
  applyOps (initStore ["device-1"]) [Op.heartbeat "device-1" 98765]

/-- Witness for C3: one heartbeat at T = 98765 ns gives 100% uptime. -/
theorem single_heartbeat_uptime_witness :
    (getStats wStore3 "device-1").2 = true ∧
    (getStats wStore3 "device-1").1.uptime = 100 :=
  single_heartbeat_uptime wStore3 "device-1"
    ⟨"device-1", 1, 98765, 98765, 0, 0⟩ (by decide) rfl

/-- Claim C4: for a known device with at least one upload, `getStats`
reports `hasUploads = true` and
`avgUploadDuration = uploadTimeSum / uploadCount` with truncating
(toward-zero) integer division, as Go's `time.Duration` division does. -/
theorem avg_upload_time_eq (s : Store) (deviceID : String)
    (d : DeviceStats) (hd : s deviceID = some d)
    (hu : 0 < d.uploadCount) :
    (getStats s deviceID).1.hasUploads = true ∧
    (getStats s deviceID).1.avgUploadTime
      = d.uploadTimeSum.tdiv d.uploadCount := by
  rw [getStats_known s deviceID d hd]
  constructor
  · show decide (d.uploadCount > 0) = true
    exact decide_eq_true hu
  · show avgUploadOf d = _
    unfold avgUploadOf
    rw [if_pos hu]

/-- Concrete store for the C4 witness: uploads of 5s, 10s and 15s. -/
def wStore4 : Store :=
  applyOps (initStore ["device-1"])
    [Op.upload "device-1" 5000000000,
     Op.upload "device-1" 10000000000,
     Op.upload "device-1" 15000000000]

/-- Witness for C4: upload durations {5s, 10s, 15s} give an average of
exactly 10s. -/
theorem avg_upload_time_eq_witness :
    (getStats wStore4 "device-1").1.hasUploads = true ∧
    (getStats wStore4 "device-1").1.avgUploadTime = 10000000000 := by
  have h := avg_upload_time_eq wStore4 "device-1"
    ⟨"device-1", 0, 0, 0, 3, 30000000000⟩ (by decide) (by norm_num)
  exact ⟨h.1, by rw [h.2]; decide⟩

/-- Claim C5: for a device identifier not present in the store,
`DeviceExists` returns false, `RecordHeartbeat` and `RecordUploadStat`
return false and leave the store unchanged, and `GetStats` returns the
zero result with `found = false`. -/
theorem unknown_device_no_mutation (s : Store) (deviceID : String)
    (h : s deviceID = none) (t dur : ℤ) :
    deviceExists s deviceID = false ∧
    recordHeartbeat s deviceID t = (false, s) ∧
    recordUploadStat s deviceID dur = (false, s) ∧
    getStats s deviceID = (emptyStats, false) := by
  refine ⟨?_, ?_, ?_, ?_⟩
  · simp [deviceExists, h]
  · unfold recordHeartbeat
    rw [h]
  · unfold recordUploadStat
    rw [h]
  · unfold getStats
    rw [h]

/-- Concrete store for the C5 witness: roster contains only device-1. -/
def wStore5 : Store := initStore ["device-1"]

/-- Witness for C5: device-2 is unknown, so every operation reports
not-found and the store value is returned unchanged. -/
theorem unknown_device_no_mutation_witness :
    deviceExists wStore5 "device-2" = false ∧
    recordHeartbeat wStore5 "device-2" 60000000000 = (false, wStore5) ∧
    recordUploadStat wStore5 "device-2" 5000000000 = (false, wStore5) ∧
    getStats wStore5 "device-2" = (emptyStats, false) :=
  unknown_device_no_mutation wStore5 "device-2" (by decide)
    60000000000 5000000000

/-- Claim C6: for a known device whose record has zero heartbeats and
zero uploads, `getStats` returns `found = true` with
`hasHeartbeats = false` and `hasUploads = false`. -/
theorem empty_record_stats (s : Store) (deviceID : String)
    (d : DeviceStats) (hd : s deviceID = some d)
    (hh : d.heartbeatCount = 0) (hu : d.uploadCount = 0) :
    (getStats s deviceID).2 = true ∧
    (getStats s deviceID).1.hasHeartbeats = false ∧
    (getStats s deviceID).1.hasUploads = false := by
  rw [getStats_known s deviceID d hd]
  refine ⟨rfl, ?_, ?_⟩ <;> simp [hh, hu]

/-- Witness for C6: a freshly loaded device has both flags false and is
still found. -/
theorem empty_record_stats_witness :
    (getStats (initStore ["device-1"]) "device-1").2 = true ∧
    (getStats (initStore ["device-1"]) "device-1").1.hasHeartbeats = false ∧
    (getStats (initStore ["device-1"]) "device-1").1.hasUploads = false :=
  empty_record_stats (initStore ["device-1"]) "device-1"
    (initDevice "device-1") (by decide) rfl rfl

/-- Claim C7, counterexample: two heartbeats recorded out of
chronological order, 11 minutes and then 1 minute, give a span of −10
minutes, a denominator of −9, and a reported uptime of −200/9 < 0 — the
value is not within 0–100. -/
def cexStore7 : Store :=
  applyOps (initStore ["device-1"])
    [Op.heartbeat "device-1" 660000000000, Op.heartbeat "device-1" 60000000000]

/-- Claim C7, counterexample theorem: the reported uptime is negative. -/
theorem uptime_negative_example :
    (getStats cexStore7 "device-1").1.uptime < 0 := by
  have h : cexStore7 "device-1" =
      some ⟨"device-1", 2, 660000000000, 60000000000, 0, 0⟩ := by decide
  rw [getStats_known cexStore7 "device-1" _ h]
  show uptimeOf _ < 0
  unfold uptimeOf
  norm_num [minutesBetween, minuteNs]

/-- Claim C7 (amended): the uptime reported by `getStats` never exceeds
100; it also lies within 0–100 whenever the device record satisfies
`firstHeartbeatAt ≤ lastHeartbeatAt` (in particular whenever heartbeats
were submitted in chronological order); with out-of-order timestamps the
lower bound can fail. -/
theorem uptime_within_bounds (s : Store) (deviceID : String) :
    (getStats s deviceID).1.uptime ≤ 100 ∧
    (∀ d, s deviceID = some d → d.firstHeartbeat ≤ d.lastHeartbeat →
      0 ≤ (getStats s deviceID).1.uptime) := by
  constructor
  · cases hsi : s deviceID with
    | none => simp [getStats, hsi, emptyStats]
    | some d =>
      rw [getStats_known s deviceID d hsi]
      show uptimeOf d ≤ 100
      simp only [uptimeOf]
      split_ifs <;>
        first
          | (rename_i hcap; exact le_of_not_lt hcap)
          | norm_num
  · intro d hd hle
    rw [getStats_known s deviceID d hd]
    show (0 : ℚ) ≤ uptimeOf d
    have hmb1 : (1 : ℚ) ≤ minutesBetween d := by
      unfold minutesBetween minuteNs
      have h0 : (0 : ℚ) ≤ ((d.lastHeartbeat - d.firstHeartbeat : ℤ) : ℚ) := by
        have : (0 : ℤ) ≤ d.lastHeartbeat - d.firstHeartbeat := by omega
        exact_mod_cast this
      have := div_nonneg h0 (by norm_num : (0 : ℚ) ≤ ((60000000000 : ℤ) : ℚ))
      linarith
    simp only [uptimeOf]
    by_cases hb : d.heartbeatCount > 0
    · by_cases h1 : d.heartbeatCount = 1
      · rw [if_pos hb, if_pos h1]
        norm_num
      · rw [if_pos hb, if_neg h1]
        have hmb : minutesBetween d ≠ 0 := by
          intro h0
          rw [h0] at hmb1
          norm_num at hmb1
        rw [if_neg hmb]
        have hcpos : (0 : ℚ) < (d.heartbeatCount : ℚ) := by exact_mod_cast hb
        have hraw : (0 : ℚ) ≤ (d.heartbeatCount : ℚ) / minutesBetween d * 100 :=
          mul_nonneg (div_nonneg hcpos.le (by linarith)) (by norm_num)
        split_ifs <;> [norm_num; exact hraw]
    · rw [if_neg hb]

/-- Concrete store for the C7 witness: three heartbeats within the same
minute (seconds 60, 80, 100), which un-clamped would give 300%. -/
def wStore7 : Store :=
  applyOps (initStore ["device-1"])
    [Op.heartbeat "device-1" 60000000000,
     Op.heartbeat "device-1" 80000000000,
     Op.heartbeat "device-1" 100000000000]

/-- Witness for C7 (amended): three heartbeats in the same minute,
recorded in chronological order, give an uptime within 0–100 (the cap
holds). -/
theorem uptime_within_bounds_witness :
    (getStats wStore7 "device-1").1.uptime ≤ 100 ∧
    0 ≤ (getStats wStore7 "device-1").1.uptime := by
  have h := uptime_within_bounds wStore7 "device-1"
  exact ⟨h.1, h.2 ⟨"device-1", 3, 60000000000, 100000000000, 0, 0⟩
    (by decide) (by norm_num)⟩

/-- Claim C8, counterexample: the store accepts any duration, so uploads
of +5s and −5s leave `uploadCount = 2` with `uploadTimeSum = 0`,
refuting `uploadCount == 0 ⇔ uploadTimeSum == 0`. -/
theorem upload_invariant_violation :
    ((applyOps (initStore ["device-1"])
        [Op.upload "device-1" 5000000000, Op.upload "device-1" (-5000000000)])
        "device-1").map (fun d => (d.uploadCount, d.uploadTimeSum))
      = some (2, 0) ∧
    ¬((2 : ℤ) = 0 ↔ (0 : ℤ) = 0) := by
  refine ⟨by decide, ?_⟩
  intro h
  exact absurd (h.mpr rfl) (by norm_num)

/-- Supporting example: even with all-positive durations the `int64` sum
wraps, so positive uploads of 2^63−1, 2^63−1 and 2 nanoseconds leave
`uploadCount = 3` with `uploadTimeSum = 0` — overflow alone breaks the
count/sum equivalence, which is why the amended C8 also bounds the total
of the recorded durations. -/
theorem upload_sum_wrap_example :
    ((applyOps (initStore ["device-1"])
        [Op.upload "device-1" (2 ^ 63 - 1), Op.upload "device-1" (2 ^ 63 - 1),
         Op.upload "device-1" 2]) "device-1").map
        (fun d => (d.uploadCount, d.uploadTimeSum))
      = some (3, 0) := by
  decide

/-- Claim C8 (amended): `uploadCount == 0 ⇔ uploadTimeSum == 0` holds in
every store state reachable from a roster store by operation sequences
whose upload durations are all positive and whose total stays within the
`int64` range (so the wrapped `time.Duration` sum never overflows — the
validated-input regime the spec assigns to the Gateway); a non-positive
duration, or overflow of the sum, can break it. -/
theorem upload_count_sum_iff (roster : List String) (ops : List Op)
    (hops : ∀ op ∈ ops, opPositiveDuration op)
    (htotal : uploadBudget ops ≤ 2 ^ 63 - 1)
    (deviceID : String) (d : DeviceStats)
    (hd : applyOps (initStore roster) ops deviceID = some d) :
    d.uploadCount = 0 ↔ d.uploadTimeSum = 0 := by
  have h := upBounded_applyOps ops (initStore roster) 0
    (upBounded_initStore roster) hops le_rfl (by omega) deviceID d hd
  exact h.2.2.2

/-- Witness for C8 (amended): after positive uploads of 5s and 15s the
record holds count 2 and sum 20s, and the equivalence holds there (both
sides false). -/
theorem upload_count_sum_iff_witness :
    ((applyOps (initStore ["device-1"])
        [Op.upload "device-1" 5000000000, Op.upload "device-1" 15000000000])
        "device-1").map (fun d => (d.uploadCount, d.uploadTimeSum))
      = some (2, 20000000000) ∧
    ((2 : ℤ) = 0 ↔ (20000000000 : ℤ) = 0) := by
  refine ⟨by decide, ?_⟩
  have h := upload_count_sum_iff ["device-1"]
    [Op.upload "device-1" 5000000000, Op.upload "device-1" 15000000000]
    (by
      intro op hop
      simp only [List.mem_cons, List.mem_singleton] at hop
      rcases hop with hop | hop | hop <;> first | (subst hop; norm_num [opPositiveDuration]) | cases hop)
    (by norm_num [uploadBudget, opUploadAmount])
    "device-1" ⟨"device-1", 0, 0, 0, 2, 20000000000⟩ (by decide)
  exact h

/-- Claim C10: on a known device, `recordHeartbeat` changes at most the
heartbeat fields of that device's record and `recordUploadStat` at most
its upload fields; the `id` field, the other telemetry kind's fields,
every other device's entry, and the store's key set are unchanged. -/
theorem record_ops_frame (s : Store) (deviceID : String) (d : DeviceStats)
    (hd : s deviceID = some d) (t dur : ℤ) :
    (∀ j, j ≠ deviceID → (recordHeartbeat s deviceID t).2 j = s j) ∧
    (∀ j, j ≠ deviceID → (recordUploadStat s deviceID dur).2 j = s j) ∧
    ((recordHeartbeat s deviceID t).2 deviceID).map
        (fun r => (r.id, r.uploadCount, r.uploadTimeSum))
      = some (d.id, d.uploadCount, d.uploadTimeSum) ∧
    ((recordUploadStat s deviceID dur).2 deviceID).map
        (fun r => (r.id, r.heartbeatCount, r.firstHeartbeat, r.lastHeartbeat))
      = some (d.id, d.heartbeatCount, d.firstHeartbeat, d.lastHeartbeat) ∧
    (∀ j, ((recordHeartbeat s deviceID t).2 j).isSome = (s j).isSome) ∧
    (∀ j, ((recordUploadStat s deviceID dur).2 j).isSome = (s j).isSome) := by
  unfold recordHeartbeat recordUploadStat
  rw [hd]
  refine ⟨?_, ?_, ?_, ?_, ?_, ?_⟩
  · intro j hj
    simp [hj]
  · intro j hj
    simp [hj]
  · simp
  · simp
  · intro j
    by_cases hj : j = deviceID <;> simp [hj, hd]
  · intro j
    by_cases hj : j = deviceID <;> simp [hj, hd]

/-- Witness for C10: on a two-device roster, touching device-1 leaves
device-2's entry and the key set intact and preserves the untouched
fields of device-1's record. -/
theorem record_ops_frame_witness :
    (recordHeartbeat (initStore ["device-1", "device-2"]) "device-1"
        60000000000).2 "device-2"
      = initStore ["device-1", "device-2"] "device-2" ∧
    (recordUploadStat (initStore ["device-1", "device-2"]) "device-1"
        5000000000).2 "device-2"
      = initStore ["device-1", "device-2"] "device-2" ∧
    ((recordHeartbeat (initStore ["device-1", "device-2"]) "device-1"
        60000000000).2 "device-1").map
        (fun r => (r.id, r.uploadCount, r.uploadTimeSum))
      = some ("device-1", 0, 0) ∧
    ((recordUploadStat (initStore ["device-1", "device-2"]) "device-1"
        5000000000).2 "device-1").map
        (fun r => (r.id, r.heartbeatCount, r.firstHeartbeat, r.lastHeartbeat))
      = some ("device-1", 0, 0, 0) ∧
    ((recordHeartbeat (initStore ["device-1", "device-2"]) "device-1"
        60000000000).2 "device-2").isSome
      = (initStore ["device-1", "device-2"] "device-2").isSome := by
  have h := record_ops_frame (initStore ["device-1", "device-2"]) "device-1"
    (initDevice "device-1") (by decide) 60000000000 5000000000
  exact ⟨h.1 "device-2" (by decide), h.2.1 "device-2" (by decide),
    h.2.2.1, h.2.2.2.1, h.2.2.2.2.1 "device-2"⟩
